import Mathlib

/-!
Verification development for the InterviewAce live-interview core.

Shallow embedding of the TypeScript sources:
- `src/lib/types.ts`            → data model (`Speaker`, `TranscriptItem`, …)
- `src/lib/local-storage.ts`    → session persistence (`saveSessionToLocalStorage`, …)
- `src/hooks/useLiveInterviewerTranscriber.ts` → transcriber hook state machine
- `src/hooks/useAudioRecorder.ts` (and the variant bundled in `local-storage.ts`)
  → recorder state machine
- `src/services/speech-recognition.ts` → `LiveTranscriber.onresult` / `onerror`
- `src/components/interview-ace/live-mode.tsx` (and the `part_005` variant)
  → session orchestrator handlers and the AI-trigger debounce effect

Dates (ISO strings compared via `new Date(..).getTime()`) are modelled as `Nat`
timestamps; media tracks carry a `Nat` id and stopping a track is recorded by
appending its id to a ghost `stoppedTrackIds` log; `URL.createObjectURL` /
`revokeObjectURL` are modelled by a fresh-`Nat` counter and a `revokedUrls` log.
Deferred browser callbacks (`MediaRecorder.onstop`, the debounce timer) are
modelled as explicit events delivered by separate step functions.
-/

namespace InterviewAce

/-- Speaker tag of a transcript line (`TranscriptItem.speaker` in `types.ts`). -/
inductive Speaker
  | user
  | interviewer
  | ai
deriving DecidableEq, Repr

/-- One line of conversation (`TranscriptItem` in `types.ts`);
`timestamp` is `Date.now()` milliseconds. -/
structure TranscriptItem where
  speaker : Speaker
  text : String
  timestamp : Nat
deriving DecidableEq, Repr

/-- A persisted session (`StoredInterviewSession` in `types.ts`).
`date` is the `getTime()` value of the ISO date string. -/
structure StoredInterviewSession where
  id : String
  mode : String
  date : Nat
  roleDescription : Option String
  transcript : List TranscriptItem
  userSpokenResponses : Option (List TranscriptItem)
  summary : Option String
  overallFeedback : Option String
deriving DecidableEq, Repr

/-- Recorder status (`AudioStatus` in `types.ts`). -/
inductive AudioStatus
  | idle
  | recording
  | processing
  | stopped
deriving DecidableEq, Repr

/-- Audio source selector (`AudioSourceType` in `types.ts`). -/
inductive AudioSourceType
  | microphone
  | display
deriving DecidableEq, Repr

/-- Model of the JavaScript `String.prototype.trim()`: strip leading and
trailing whitespace. (Lean's own `String.trim` is not kernel-reducible, so the
embedding uses this executable definition throughout.) -/
def jsTrim (s : String) : String :=
  ⟨((s.data.dropWhile Char.isWhitespace).reverse.dropWhile Char.isWhitespace).reverse⟩

/-! ## Persistence (`src/lib/local-storage.ts`) -/

/-- The comparator used by `getSessionsFromLocalStorage`:
`(a, b) => new Date(b.date).getTime() - new Date(a.date).getTime()`
sorts most-recent-first, i.e. `a` precedes `b` when `b.date ≤ a.date`. -/
def sessionDateDesc (a b : StoredInterviewSession) : Prop :=
  b.date ≤ a.date

instance : DecidableRel sessionDateDesc :=
  fun a b => Nat.decLe b.date a.date

instance : IsTotal StoredInterviewSession sessionDateDesc :=
  ⟨fun a b => Nat.le_total b.date a.date⟩

instance : IsTrans StoredInterviewSession sessionDateDesc :=
  ⟨fun _ _ _ hab hbc => Nat.le_trans hbc hab⟩

/-- `getSessionsFromLocalStorage`: reads the stored list and sorts it by date
descending (a stable sort, matching the JS engine sort). The raw stored list is
the `store` argument. -/
def getSessionsFromLocalStorage (store : List StoredInterviewSession) :
    List StoredInterviewSession :=
  store.insertionSort sessionDateDesc

/-- `saveSessionToLocalStorage`: prepends the new session to the (sorted) existing
list and keeps only the first 20 entries (`updatedSessions.slice(0, 20)`). -/
def saveSessionToLocalStorage (session : StoredInterviewSession)
    (store : List StoredInterviewSession) : List StoredInterviewSession :=
  (session :: getSessionsFromLocalStorage store).take 20

/-- `deleteSessionFromLocalStorage`: filters out every session whose id equals
the argument (operating on the sorted read, as the code calls
`getSessionsFromLocalStorage` first). -/
def deleteSessionFromLocalStorage (id : String)
    (store : List StoredInterviewSession) : List StoredInterviewSession :=
  (getSessionsFromLocalStorage store).filter (fun s => decide (s.id ≠ id))

/-! ## Media streams and tracks -/

/-- Kind of a `MediaStreamTrack`. -/
inductive TrackKind
  | audio
  | video
deriving DecidableEq, Repr

/-- A `MediaStreamTrack`, identified by a ghost `Nat` id. -/
structure MediaTrack where
  tid : Nat
  kind : TrackKind
deriving DecidableEq, Repr

/-- A `MediaStream` is its list of tracks. -/
structure MediaStream where
  tracks : List MediaTrack
deriving DecidableEq, Repr

/-- `stream.getAudioTracks()`. -/
def MediaStream.getAudioTracks (s : MediaStream) : List MediaTrack :=
  s.tracks.filter (fun t => decide (t.kind = TrackKind.audio))

/-- `stream.getVideoTracks()`. -/
def MediaStream.getVideoTracks (s : MediaStream) : List MediaTrack :=
  s.tracks.filter (fun t => decide (t.kind = TrackKind.video))

/-- Outcome of an asynchronous media acquisition
(`getDisplayMedia` / `getUserMedia`): either a stream, or a rejection
(`domError` for a `DOMException` with its `name`, `jsError` for a plain
`Error`), both carrying the `message`. -/
inductive AcquisitionResult
  | ok (s : MediaStream)
  | domError (name msg : String)
  | jsError (msg : String)
deriving DecidableEq, Repr

/-! ## Interviewer transcriber hook (`src/hooks/useLiveInterviewerTranscriber.ts`)

The hook state is the React state (`isListening`, `error`, `interimTranscript`,
`finalTranscriptSegment`) together with the refs (`mediaStreamRef`,
`originalDisplayStreamRef`) and ghost logs. `silenceTimerRef` is omitted: the
source only ever clears it and never arms it, so it has no observable effect.
`transcriberActive` mirrors the `LiveTranscriber.isActive` flag of the
instance held in `transcriberRef`. -/

structure TranscriberState where
  isListening : Bool
  error : Option String
  interimTranscript : String
  finalTranscriptSegment : Option String
  mediaStreamRef : Option MediaStream
  originalDisplayStreamRef : Option MediaStream
  transcriberActive : Bool
  /-- Ghost log: the ids of every track on which `track.stop()` was called. -/
  stoppedTrackIds : List Nat
deriving DecidableEq, Repr

/-- Record `track.stop()` for each track in the list. -/
def TranscriberState.stopTrackList (st : TranscriberState) (ts : List MediaTrack) :
    TranscriberState :=
  { st with stoppedTrackIds := st.stoppedTrackIds ++ ts.map (fun t => t.tid) }

/-- `cleanupStreams`: stop every track of `mediaStreamRef` and of
`originalDisplayStreamRef`, clearing both refs. -/
def cleanupStreams (st : TranscriberState) : TranscriberState :=
  let st1 :=
    match st.mediaStreamRef with
    | some s => { st.stopTrackList s.tracks with mediaStreamRef := none }
    | none => st
  match st1.originalDisplayStreamRef with
  | some s => { st1.stopTrackList s.tracks with originalDisplayStreamRef := none }
  | none => st1

/-- Source-type label used in error messages. -/
def AudioSourceType.label : AudioSourceType → String
  | .microphone => "microphone"
  | .display => "display"

/-- The message of the error thrown in the display branch when the display
stream has no audio track. -/
def hookNoAudioTrackMsg : String :=
  "Screen share started, but no audio track was found. Ensure audio sharing is enabled."

/-- The `catch` block of `startListening`: builds the user-friendly message
(special-casing `DOMException` names), records it, stops listening and cleans
up both stream refs. -/
def startListeningCatch (st : TranscriberState) (sourceType : AudioSourceType)
    (isDom : Bool) (name msg : String) : TranscriberState :=
  let userFriendlyMessage :=
    if isDom ∧ (name = "NotAllowedError" ∨ name = "SecurityError") then
      "Access to " ++ sourceType.label ++ " was denied or disallowed by policy. Check permissions."
    else if isDom ∧ name = "NotFoundError" then
      "Could not start " ++ sourceType.label ++ ". No source selected/available."
    else
      "Error starting listener for " ++ sourceType.label ++ ": " ++ msg ++ "."
  cleanupStreams { st with error := some userFriendlyMessage, isListening := false }

/-- `startListening(sourceType)`. The acquisition outcome for the requested
source is supplied by the environment as `acq`. Mirrors the source line by
line: the three state clears happen before the `isListening` guard; the
display branch retains the original display stream in its ref, fails on zero
audio tracks (caught as a plain `Error`), otherwise derives an audio-only
stream, stops the display video tracks, and starts the transcriber. -/
def startListening (st : TranscriberState) (sourceType : AudioSourceType)
    (acq : AcquisitionResult) : TranscriberState :=
  let st0 := { st with
    error := none
    interimTranscript := ""
    finalTranscriptSegment := none }
  if st.isListening then st0
  else
    match acq with
    | .domError name msg => startListeningCatch st0 sourceType true name msg
    | .jsError msg => startListeningCatch st0 sourceType false "" msg
    | .ok stream =>
      match sourceType with
      | .display =>
        let st1 := { st0 with originalDisplayStreamRef := some stream }
        if stream.getAudioTracks.isEmpty then
          startListeningCatch st1 .display false "" hookNoAudioTrackMsg
        else
          let streamToUse : MediaStream := ⟨stream.getAudioTracks⟩
          let st2 := st1.stopTrackList stream.getVideoTracks
          { st2 with
            mediaStreamRef := some streamToUse
            transcriberActive := true
            isListening := true }
      | .microphone =>
        { st0 with
          mediaStreamRef := some stream
          transcriberActive := true
          isListening := true }

/-- `stopListening`: stop the transcriber if active, clean up streams, stop
listening, clear the interim transcript. -/
def stopListening (st : TranscriberState) : TranscriberState :=
  let st1 := { st with transcriberActive := false }
  { cleanupStreams st1 with isListening := false, interimTranscript := "" }

/-- `resetFinalTranscriptSegment`. -/
def resetFinalTranscriptSegment (st : TranscriberState) : TranscriberState :=
  { st with finalTranscriptSegment := none }

/-- `handleTranscriptionResult(text, isFinal)`. Returns the new hook state and
the list of `onFinalSegmentCallback` invocations (the argument of each call). -/
def handleTranscriptionResult (st : TranscriberState) (text : String)
    (isFinal : Bool) : TranscriberState × List String :=
  if isFinal then
    if jsTrim text ≠ "" then
      ({ st with interimTranscript := "",
                 finalTranscriptSegment := some text }, [text])
    else
      ({ st with interimTranscript := "" }, [])
  else
    ({ st with interimTranscript := text }, [])

/-- An error delivered to `handleTranscriptionError`: either a plain JS `Error`
or a `SpeechRecognitionErrorEvent` carrying its `error` code. -/
inductive TranscriptionErr
  | jsErr (msg : String)
  | recErr (code : String)
deriving DecidableEq, Repr

/-- The informative message recorded for a `no-speech` engine error. -/
def noSpeechMsg : String :=
  "No speech detected. Listening will continue if active."

/-- `handleTranscriptionError`: `no-speech` records an informative message and
returns early (listening state untouched); every other error records a message
and sets `isListening` to `false`. -/
def handleTranscriptionError (st : TranscriberState) (e : TranscriptionErr) :
    TranscriberState :=
  match e with
  | .jsErr msg => { st with error := some msg, isListening := false }
  | .recErr code =>
    if code = "no-speech" then
      { st with error := some noSpeechMsg }
    else
      let message :=
        if code = "audio-capture" then
          "Audio capture failed. Please check microphone/audio source permissions."
        else if code = "not-allowed" then
          "Transcription permission denied. Please allow microphone/audio access."
        else
          "Transcription error: " ++ code
      { st with error := some message, isListening := false }

/-! ## Audio recorder hook (`src/hooks/useAudioRecorder.ts`, and the variant
bundled after `local-storage.ts`)

State covers the React state (`status`, `audioBlob`, `audioUrl`, `error`,
`mediaStream`), the refs (`mediaRecorderRef`, `audioChunksRef`,
`originalDisplayStreamRef`) and ghost logs. Audio chunks are `Nat` ids; a blob
is the list of chunks it was assembled from; object URLs are drawn from a
fresh counter `nextUrl` and revocations are logged in `revokedUrls`.
`MediaRecorder.stop()` fires its `onstop` handler as a deferred browser task,
modelled by the `pendingOnStop` flag discharged by `fireOnStop`. -/

/-- State of the `MediaRecorder` instance held in `mediaRecorderRef`. -/
inductive RecorderMachine
  | inactive
  | recording
deriving DecidableEq, Repr

structure RecorderState where
  status : AudioStatus
  audioBlob : Option (List Nat)
  audioUrl : Option Nat
  error : Option String
  mediaStream : Option MediaStream
  originalDisplayStream : Option MediaStream
  chunks : List Nat
  mediaRecorder : Option RecorderMachine
  pendingOnStop : Bool
  /-- Ghost log: ids of every track on which `track.stop()` was called. -/
  stoppedTrackIds : List Nat
  /-- Ghost log: every object URL passed to `URL.revokeObjectURL`. -/
  revokedUrls : List Nat
  /-- Fresh counter backing `URL.createObjectURL`. -/
  nextUrl : Nat
deriving DecidableEq, Repr

/-- Record `track.stop()` for each track in the list. -/
def RecorderState.stopTrackList (st : RecorderState) (ts : List MediaTrack) :
    RecorderState :=
  { st with stoppedTrackIds := st.stoppedTrackIds ++ ts.map (fun t => t.tid) }

/-- The error recorded by `startRecording` when a display stream has no audio
track. -/
def recorderNoAudioTrackMsg : String :=
  "Screen share started, but no audio track was found. Please ensure you share audio (e.g., from a browser tab or system audio)."

/-- The `catch` block of the `local-storage.ts` variant of `startRecording`:
build a user-friendly message from the thrown error and return to `idle`
(this variant performs no stream cleanup in its catch). -/
def startRecordingCatch (st : RecorderState) (sourceType : AudioSourceType)
    (isJsError : Bool) (name msg : String) : RecorderState :=
  let userFriendlyMessage :=
    if isJsError then
      let base := "Error accessing " ++ sourceType.label ++ ": " ++ msg ++ "."
      if name = "NotAllowedError" then
        base ++ " Please ensure " ++ sourceType.label ++ " access is granted."
      else if name = "NotFoundError" ∧ sourceType = .display then
        "Could not start screen share. No source selected or available."
      else base
    else
      "An unknown error occurred while accessing the " ++ sourceType.label ++ "."
  { st with error := some userFriendlyMessage, status := .idle }

/-- `startRecording(options)` of the `useAudioRecorder` variant bundled in
`local-storage.ts` (the display branch is line-for-line identical in both
variants). The clears run before the `status === "recording"` guard; the
display branch retains the original display stream, bails out to `idle`
stopping all its tracks when it has no audio track, otherwise records on a
derived audio-only stream after stopping the display video tracks. -/
def startRecording (st : RecorderState) (sourceType : AudioSourceType)
    (acq : AcquisitionResult) : RecorderState :=
  let st0 :=
    let stRevoked :=
      match st.audioUrl with
      | some u => { st with revokedUrls := st.revokedUrls ++ [u] }
      | none => st
    { stRevoked with error := none, audioBlob := none, audioUrl := none }
  if st.status = .recording then st0
  else
    match acq with
    | .domError name msg => startRecordingCatch st0 sourceType true name msg
    | .jsError msg => startRecordingCatch st0 sourceType true "" msg
    | .ok stream =>
      match sourceType with
      | .display =>
        let st1 := { st0 with originalDisplayStream := some stream }
        if stream.getAudioTracks.isEmpty then
          let st2 := { st1 with error := some recorderNoAudioTrackMsg, status := .idle }
          let st3 := st2.stopTrackList stream.tracks
          { st3 with originalDisplayStream := none }
        else
          let streamToRecord : MediaStream := ⟨stream.getAudioTracks⟩
          let st2 := st1.stopTrackList stream.getVideoTracks
          { st2 with
            mediaStream := some streamToRecord
            status := .recording
            mediaRecorder := some .recording
            chunks := [] }
      | .microphone =>
        { st0 with
          mediaStream := some stream
          status := .recording
          mediaRecorder := some .recording
          chunks := [] }

/-- `recorder.ondataavailable`: buffer a non-empty chunk. -/
def onDataAvailable (st : RecorderState) (chunk : Nat) : RecorderState :=
  { st with chunks := st.chunks ++ [chunk] }

/-- `stopRecording`: ask the recorder to stop if it is recording; the status
change is left to the deferred `onstop` handler. -/
def stopRecording (st : RecorderState) : RecorderState :=
  if st.mediaRecorder = some .recording then
    { st with mediaRecorder := some .inactive, pendingOnStop := true }
  else st

/-- The deferred `recorder.onstop` handler: assemble the buffered chunks into a
blob, mint an object URL for it, and transition to `stopped`. The handler
deliberately stops no stream track. -/
def fireOnStop (st : RecorderState) : RecorderState :=
  if st.pendingOnStop then
    { st with
      pendingOnStop := false
      audioBlob := some st.chunks
      audioUrl := some st.nextUrl
      nextUrl := st.nextUrl + 1
      status := .stopped }
  else st

/-- `resetRecording`: stop the recorder if still recording, revoke the issued
URL, stop every track of the owned stream and of the retained original display
stream, and clear blob, URL, status, error, chunk buffer and recorder ref. -/
def resetRecording (st : RecorderState) : RecorderState :=
  let st1 :=
    if st.mediaRecorder = some .recording then
      { st with mediaRecorder := some .inactive, pendingOnStop := true }
    else st
  let st2 :=
    match st1.audioUrl with
    | some u => { st1 with revokedUrls := st1.revokedUrls ++ [u] }
    | none => st1
  let st3 :=
    match st2.mediaStream with
    | some s => { st2.stopTrackList s.tracks with mediaStream := none }
    | none => st2
  let st4 :=
    match st3.originalDisplayStream with
    | some s => { st3.stopTrackList s.tracks with originalDisplayStream := none }
    | none => st3
  { st4 with
    audioBlob := none
    audioUrl := none
    status := .idle
    error := none
    chunks := []
    mediaRecorder := none }

/-! ## Live transcription engine (`src/services/speech-recognition.ts`,
`LiveTranscriber.recognition.onresult`) -/

/-- One entry of `event.results[i]` as consumed by the handler: its first
alternative transcript and its `isFinal` flag. -/
structure RecResult where
  transcript : String
  isFinal : Bool
deriving DecidableEq, Repr

/-- The result-collection loop of `onresult`: a single pass from
`event.resultIndex` concatenating final parts and interim parts separately.
Returns `(finalTranscriptThisPass, interimTranscript)`. -/
def collectParts (results : List RecResult) : String × String :=
  results.foldl
    (fun p r =>
      if r.isFinal then (p.1 ++ r.transcript, p.2) else (p.1, p.2 ++ r.transcript))
    ("", "")

/-- The tail of `onresult` after the loop, acting on the accumulator
`currentTextSinceLastFinal`. Returns the new accumulator and the list of
`onResult(text, isFinal)` emissions (the JS `if (finalTranscriptThisPass)`
and `else if (interimTranscript)` tests are string non-emptiness). -/
def onresultStep (acc : String) (results : List RecResult) :
    String × List (String × Bool) :=
  let parts := collectParts results
  if parts.1 ≠ "" then
    ("", [(jsTrim (acc ++ parts.1), true)])
  else if parts.2 ≠ "" then
    (acc, [(jsTrim (acc ++ parts.2), false)])
  else
    (acc, [])

/-! ## AI-trigger debounce (`live-mode.tsx` / `part_005`, the `useEffect`
watching `interviewerTranscriber.finalTranscriptSegment`)

The effect re-runs whenever `finalTranscriptSegment` changes. React first runs
the previous run's cleanup, which clears any pending timer
(`clearTimeout(aiTriggerTimeoutRef.current)`); the body then, for a non-blank
segment, clears again and arms a fresh `AI_TRIGGER_PAUSE_DURATION_MS = 2500`
millisecond timer capturing the segment. The timer firing (no new segment
arrived within the window) dispatches the captured segment to
`triggerAISuggestionForInterviewerQuestion`. `pending` is the armed timer with
its captured segment; `dispatched` logs the dispatched segment values. -/

structure DebounceState where
  pending : Option String
  dispatched : List String
deriving DecidableEq, Repr

/-- Re-run of the effect for a new `finalTranscriptSegment` value: the previous
cleanup cancels any pending timer, then the body arms a timer for the segment
iff it is present and non-blank. -/
def debounceOnSegment (st : DebounceState) (seg : Option String) : DebounceState :=
  let st1 := { st with pending := none }
  match seg with
  | some s => if jsTrim s ≠ "" then { st1 with pending := some s } else st1
  | none => st1

/-- The settle timer elapses: dispatch the captured segment, if a timer was
pending. -/
def debounceElapse (st : DebounceState) : DebounceState :=
  match st.pending with
  | some s => { pending := none, dispatched := st.dispatched ++ [s] }
  | none => st

/-- A burst of final segments each arriving before the previous timer elapses:
the effect re-runs once per segment with no intervening timer expiry. -/
def debounceBurst (st : DebounceState) (segs : List String) : DebounceState :=
  segs.foldl (fun t s => debounceOnSegment t (some s)) st

/-! ## Live-mode session orchestrator (`part_005` variant of `LiveMode`)

Only the state the handlers read and write is modelled: the manual question
input, the typed response input, the two logs, the `lastProcessedQuestionRef`,
and a ghost log of `suggestAnswers` invocations. The AI response itself is an
asynchronous external call; the claims concern only the requests issued. -/

/-- One `suggestAnswers` request as issued by the orchestrator
(`{ interviewerQuestion, userResponse }`). -/
structure AICall where
  interviewerQuestion : String
  userResponse : String
deriving DecidableEq, Repr

/-- Target log selector of `addMessageToTranscript` in `part_005`. -/
inductive TargetLog
  | main
  | userAuto
deriving DecidableEq, Repr

structure LiveModeState where
  interviewerQuestionManual : String
  userResponseText : String
  transcript : List TranscriptItem
  userAutoSpeechLog : List TranscriptItem
  lastProcessedQuestion : Option String
  /-- Ghost log: every `suggestAnswers` call issued. -/
  aiCalls : List AICall
deriving DecidableEq, Repr

/-- `addMessageToTranscript(speaker, text, targetLog)`: drop blank messages;
append to the chosen log; a main-log interviewer message also updates
`lastProcessedQuestionRef`. `now` is `Date.now()`. -/
def addMessageToTranscript (st : LiveModeState) (speaker : Speaker)
    (text : String) (now : Nat) (targetLog : TargetLog) : LiveModeState :=
  if jsTrim text = "" then st
  else
    match targetLog with
    | .main =>
      let st1 := { st with transcript := st.transcript ++ [⟨speaker, text, now⟩] }
      if speaker = .interviewer then
        { st1 with lastProcessedQuestion := some text }
      else st1
    | .userAuto =>
      { st with userAutoSpeechLog := st.userAutoSpeechLog ++ [⟨speaker, text, now⟩] }

/-- `triggerAISuggestionForInterviewerQuestion(questionText)`: guard on blank
text, then issue one `suggestAnswers` call with the question and an empty
`userResponse`. -/
def triggerAISuggestionForInterviewerQuestion (st : LiveModeState)
    (questionText : String) : LiveModeState :=
  if jsTrim questionText = "" then st
  else { st with aiCalls := st.aiCalls ++ [⟨questionText, ""⟩] }

/-- `handleManualInterviewerQuestionSubmit`: reject a blank input with a toast;
otherwise append the question to the main transcript, trigger the AI
suggestion for it, and clear the input field. -/
def handleManualInterviewerQuestionSubmit (st : LiveModeState) (now : Nat) :
    LiveModeState :=
  if jsTrim st.interviewerQuestionManual = "" then st
  else
    let q := st.interviewerQuestionManual
    let st1 := addMessageToTranscript st .interviewer q now .main
    let st2 := triggerAISuggestionForInterviewerQuestion st1 q
    { st2 with interviewerQuestionManual := "" }

/-- `handleSaveSession` of `part_005`: reject when both the main transcript and
the auxiliary user-speech log are empty (no write); otherwise build the
session record and save it. `newId` is the fresh `uuidv4()`, `now` the current
date, and the summary fields come from `sessionSummary`. -/
def handleSaveSession (st : LiveModeState) (newId : String) (now : Nat)
    (summary overallFeedback : Option String)
    (store : List StoredInterviewSession) : List StoredInterviewSession :=
  if st.transcript.length = 0 ∧ st.userAutoSpeechLog.length = 0 then store
  else
    saveSessionToLocalStorage
      { id := newId
        mode := "live"
        date := now
        roleDescription := none
        transcript := st.transcript
        userSpokenResponses := some st.userAutoSpeechLog
        summary := summary
        overallFeedback := overallFeedback }
      store

/-! ## Characterizations used by the theorems -/

/-- The concatenation, in order, of the transcripts of the final-marked
result segments of a batch. -/
def finalConcat : List RecResult → String
  | [] => ""
  | r :: rs => if r.isFinal then r.transcript ++ finalConcat rs else finalConcat rs

/-- The concatenation, in order, of the transcripts of the interim (non-final)
result segments of a batch. -/
def interimConcat : List RecResult → String
  | [] => ""
  | r :: rs => if r.isFinal then interimConcat rs else r.transcript ++ interimConcat rs

/-- A stored session with a given numeric id and date, used to exercise the
persistence layer at concrete inputs. -/
def cxSession (i : Nat) : StoredInterviewSession :=
  { id := toString i
    mode := "live"
    date := i
    roleDescription := none
    transcript := []
    userSpokenResponses := none
    summary := none
    overallFeedback := none }

/-- A store holding 20 sessions dated 1..20. -/
def cxStore : List StoredInterviewSession :=
  (List.range 20).map (fun i => cxSession (i + 1))

/-- A recorder state in `stopped` holding an artifact, a URL, an owned stream
and a retained original display stream, used to exercise `resetRecording`. -/
def rsFull : RecorderState :=
  { status := .stopped
    audioBlob := some [1, 2]
    audioUrl := some 0
    error := some "stale"
    mediaStream := some ⟨[⟨1, .audio⟩]⟩
    originalDisplayStream := some ⟨[⟨2, .audio⟩, ⟨3, .video⟩]⟩
    chunks := [1, 2]
    mediaRecorder := some .inactive
    pendingOnStop := false
    stoppedTrackIds := [3]
    revokedUrls := []
    nextUrl := 1 }

/-- A recorder state mid-recording with two buffered chunks on a live
microphone stream, used to exercise `stopRecording`. -/
def rsRecording : RecorderState :=
  { status := .recording
    audioBlob := none
    audioUrl := none
    error := none
    mediaStream := some ⟨[⟨5, .audio⟩]⟩
    originalDisplayStream := none
    chunks := [10, 11]
    mediaRecorder := some .recording
    pendingOnStop := false
    stoppedTrackIds := []
    revokedUrls := []
    nextUrl := 0 }

/-! # Theorems -/

/-! ## Helper lemmas -/

theorem debounceOnSegment_dispatched (st : DebounceState) (seg : Option String) :
    (debounceOnSegment st seg).dispatched = st.dispatched := by
  unfold debounceOnSegment
  cases seg with
  | none => rfl
  | some s =>
    by_cases h : jsTrim s ≠ "" <;> simp [h]

theorem debounceBurst_append_nonblank (st : DebounceState) (segs : List String)
    (s : String) (hall : ∀ x ∈ segs, jsTrim x ≠ "") (hs : jsTrim s ≠ "") :
    debounceBurst st (segs ++ [s]) =
      { pending := some s, dispatched := st.dispatched } := by
  induction segs generalizing st with
  | nil =>
    simp [debounceBurst, debounceOnSegment, hs]
  | cons x xs ih =>
    have hx : jsTrim x ≠ "" := hall x (by simp)
    have hxs : ∀ y ∈ xs, jsTrim y ≠ "" := fun y hy => hall y (by simp [hy])
    show debounceBurst (debounceOnSegment st (some x)) (xs ++ [s]) = _
    rw [ih _ hxs, debounceOnSegment_dispatched]

theorem collectParts_foldl (results : List RecResult) (f i : String) :
    results.foldl
      (fun p r =>
        if r.isFinal then (p.1 ++ r.transcript, p.2) else (p.1, p.2 ++ r.transcript))
      (f, i) = (f ++ finalConcat results, i ++ interimConcat results) := by
  induction results generalizing f i with
  | nil => simp [finalConcat, interimConcat]
  | cons r rs ih =>
    cases hr : r.isFinal with
    | true =>
      simp only [List.foldl_cons, hr, if_pos, ih, finalConcat, interimConcat,
        if_true, String.append_assoc]
    | false =>
      simp only [List.foldl_cons, hr, ih, finalConcat, interimConcat,
        if_false, Bool.false_eq_true, String.append_assoc]

theorem collectParts_eq (results : List RecResult) :
    collectParts results = (finalConcat results, interimConcat results) := by
  have h := collectParts_foldl results "" ""
  simpa [collectParts] using h

theorem cleanupStreams_spec (st : TranscriberState) :
    (cleanupStreams st).mediaStreamRef = none ∧
    (cleanupStreams st).originalDisplayStreamRef = none ∧
    (cleanupStreams st).isListening = st.isListening ∧
    (cleanupStreams st).error = st.error ∧
    (∀ s, st.originalDisplayStreamRef = some s →
       ∀ t ∈ s.tracks, t.tid ∈ (cleanupStreams st).stoppedTrackIds) ∧
    (∀ s, st.mediaStreamRef = some s →
       ∀ t ∈ s.tracks, t.tid ∈ (cleanupStreams st).stoppedTrackIds) := by
  cases hms : st.mediaStreamRef with
  | none =>
    cases hod : st.originalDisplayStreamRef with
    | none =>
      simp [cleanupStreams, hms, hod]
    | some s =>
      simp only [cleanupStreams, hms, hod, TranscriberState.stopTrackList]
      simp [List.mem_append, List.mem_map]
      intro t ht
      exact Or.inr ⟨t, ht, rfl⟩
  | some m =>
    cases hod : st.originalDisplayStreamRef with
    | none =>
      simp only [cleanupStreams, hms, hod, TranscriberState.stopTrackList]
      simp [List.mem_append, List.mem_map]
      intro t ht
      exact Or.inr ⟨t, ht, rfl⟩
    | some s =>
      simp only [cleanupStreams, hms, hod, TranscriberState.stopTrackList]
      simp [List.mem_append, List.mem_map]
      refine ⟨fun t ht => ?_, fun t ht => ?_⟩ <;> aesop

/-! ## Claim theorems -/

/-- Claim C1: for every sequence of non-empty final transcript segments in
which each successive segment arrives before the previous segment's
2.5-second settle timer elapses, the debounce consumer dispatches the AI
suggestion trigger exactly once, with the LAST segment value of the sequence
as its argument; no earlier, superseded segment is ever dispatched. Here the
burst `segs ++ [s]` is processed with no intervening timer expiry, and the
single expiry afterwards appends exactly `[s]` to the dispatch log. -/
theorem debounce_dispatches_last_once (st : DebounceState) (segs : List String)
    (s : String) (hall : ∀ x ∈ segs, jsTrim x ≠ "") (hs : jsTrim s ≠ "") :
    debounceElapse (debounceBurst st (segs ++ [s])) =
      { pending := none, dispatched := st.dispatched ++ [s] } := by
  rw [debounceBurst_append_nonblank st segs s hall hs]
  rfl

/-- Witness for C1: the three-segment scenario of the spec dispatches only the
third segment. -/
theorem debounce_dispatches_last_once_witness :
    debounceElapse (debounceBurst ⟨none, []⟩
        (["I think", "I think my biggest"] ++
          ["I think my biggest weakness is time management"])) =
      { pending := none,
        dispatched := [] ++ ["I think my biggest weakness is time management"] } :=
  debounce_dispatches_last_once ⟨none, []⟩ ["I think", "I think my biggest"]
    "I think my biggest weakness is time management" (by decide) (by decide)

/-- Claim C6: while listening, a `no-speech` engine error only records an
informative message — `isListening` stays `true` and `interimTranscript` (and
all other fields) are untouched — whereas `audio-capture`, `not-allowed`, or
any other engine error code sets `isListening` to `false` with a reported
error message. -/
theorem no_speech_nonfatal_other_errors_fatal (st : TranscriberState)
    (h : st.isListening = true) :
    (handleTranscriptionError st (.recErr "no-speech") =
        { st with error := some noSpeechMsg } ∧
      (handleTranscriptionError st (.recErr "no-speech")).isListening = true ∧
      (handleTranscriptionError st (.recErr "no-speech")).interimTranscript =
        st.interimTranscript) ∧
    (∀ code, code ≠ "no-speech" →
      (handleTranscriptionError st (.recErr code)).isListening = false ∧
      ∃ m, (handleTranscriptionError st (.recErr code)).error = some m) := by
  refine ⟨⟨?_, ?_, ?_⟩, ?_⟩
  · simp [handleTranscriptionError]
  · simp [handleTranscriptionError, h]
  · simp [handleTranscriptionError]
  · intro code hc
    simp [handleTranscriptionError, hc]

/-- Witness for C6: a concrete listening state, checked against `no-speech`
and `audio-capture`. -/
theorem no_speech_nonfatal_witness :
    (handleTranscriptionError
        ⟨true, none, "um", none, none, none, true, []⟩ (.recErr "no-speech") =
        { isListening := true, error := some noSpeechMsg, interimTranscript := "um",
          finalTranscriptSegment := none, mediaStreamRef := none,
          originalDisplayStreamRef := none, transcriberActive := true,
          stoppedTrackIds := [] } ∧
      (handleTranscriptionError
        ⟨true, none, "um", none, none, none, true, []⟩ (.recErr "no-speech")).isListening
        = true ∧
      (handleTranscriptionError
        ⟨true, none, "um", none, none, none, true, []⟩ (.recErr "no-speech")).interimTranscript
        = "um") ∧
    (∀ code, code ≠ "no-speech" →
      (handleTranscriptionError
        ⟨true, none, "um", none, none, none, true, []⟩ (.recErr code)).isListening = false ∧
      ∃ m, (handleTranscriptionError
        ⟨true, none, "um", none, none, none, true, []⟩ (.recErr code)).error = some m) :=
  no_speech_nonfatal_other_errors_fatal
    ⟨true, none, "um", none, none, none, true, []⟩ rfl

/-- Claim C7: when the main transcript and the auxiliary user-speech log are
both empty, the save operation is rejected: the persistence store is returned
unchanged and no record is created. -/
theorem save_rejected_when_session_empty (st : LiveModeState) (newId : String)
    (now : Nat) (summary overallFeedback : Option String)
    (store : List StoredInterviewSession)
    (ht : st.transcript = []) (hl : st.userAutoSpeechLog = []) :
    handleSaveSession st newId now summary overallFeedback store = store := by
  simp [handleSaveSession, ht, hl]

/-- Witness for C7: saving an empty session over a one-element store changes
nothing. -/
theorem save_rejected_when_session_empty_witness :
    handleSaveSession ⟨"", "", [], [], none, []⟩ "id1" 42 none none [cxSession 3] =
      [cxSession 3] :=
  save_rejected_when_session_empty ⟨"", "", [], [], none, []⟩ "id1" 42 none none
    [cxSession 3] rfl rfl

/-- Claim C9: a non-blank manual question submission appends exactly one
`interviewer` transcript item carrying exactly that text and issues exactly
one `suggestAnswers` call with that text as `interviewerQuestion` and an empty
`userResponse`; a blank submission changes nothing (no append, no AI call). -/
theorem manual_question_submit_spec (st : LiveModeState) (now : Nat) :
    (jsTrim st.interviewerQuestionManual ≠ "" →
      (handleManualInterviewerQuestionSubmit st now).transcript =
        st.transcript ++ [⟨Speaker.interviewer, st.interviewerQuestionManual, now⟩] ∧
      (handleManualInterviewerQuestionSubmit st now).aiCalls =
        st.aiCalls ++ [⟨st.interviewerQuestionManual, ""⟩]) ∧
    (jsTrim st.interviewerQuestionManual = "" →
      handleManualInterviewerQuestionSubmit st now = st) := by
  constructor
  · intro h
    simp [handleManualInterviewerQuestionSubmit, h, addMessageToTranscript,
      triggerAISuggestionForInterviewerQuestion]
  · intro h
    simp [handleManualInterviewerQuestionSubmit, h]

/-- Witness for C9: the spec scenario question is appended and triggers one AI
call with empty `userResponse`. -/
theorem manual_question_submit_spec_witness :
    (jsTrim (⟨"What is your biggest weakness?", "", [], [], none, []⟩ :
        LiveModeState).interviewerQuestionManual ≠ "" →
      (handleManualInterviewerQuestionSubmit
          ⟨"What is your biggest weakness?", "", [], [], none, []⟩ 7).transcript =
        [] ++ [⟨Speaker.interviewer, "What is your biggest weakness?", 7⟩] ∧
      (handleManualInterviewerQuestionSubmit
          ⟨"What is your biggest weakness?", "", [], [], none, []⟩ 7).aiCalls =
        [] ++ [⟨"What is your biggest weakness?", ""⟩]) ∧
    (jsTrim (⟨"What is your biggest weakness?", "", [], [], none, []⟩ :
        LiveModeState).interviewerQuestionManual = "" →
      handleManualInterviewerQuestionSubmit
          ⟨"What is your biggest weakness?", "", [], [], none, []⟩ 7 =
        ⟨"What is your biggest weakness?", "", [], [], none, []⟩) :=
  manual_question_submit_spec ⟨"What is your biggest weakness?", "", [], [], none, []⟩ 7

/-- Claim C10: calling `startListening` while already listening is not a pure
no-op: whatever the requested source and the environment's acquisition
outcome, it returns the state with `error` cleared to `none`,
`interimTranscript` cleared to `""` and `finalTranscriptSegment` cleared to
`none` (all other fields unchanged — in particular `isListening` stays `true`
and no stream ref changes). -/
theorem start_listening_while_listening_clears (st : TranscriberState)
    (sourceType : AudioSourceType) (acq : AcquisitionResult)
    (h : st.isListening = true) :
    startListening st sourceType acq =
      { st with error := none, interimTranscript := "", finalTranscriptSegment := none } := by
  simp [startListening, h]

/-- Witness for C10: a listening state with a pending final segment loses it
(and its error and interim text), keeping everything else. -/
theorem start_listening_while_listening_clears_witness :
    startListening
        ⟨true, some "old error", "interim", some "unread final", none, none, true, [4]⟩
        .display (.jsError "ignored") =
      { isListening := true, error := none, interimTranscript := "",
        finalTranscriptSegment := none, mediaStreamRef := none,
        originalDisplayStreamRef := none, transcriberActive := true,
        stoppedTrackIds := [4] } :=
  start_listening_while_listening_clears
    ⟨true, some "old error", "interim", some "unread final", none, none, true, [4]⟩
    .display (.jsError "ignored") rfl

/-- Claim C2: a display acquisition whose stream has zero audio tracks makes
the start operation fail with the reported no-audio-track error — without
entering the listening state (`startListening` of the transcriber hook) or the
recording state (`startRecording` of the recorder) — and afterwards every
track of the display stream has been stopped, no display handle is retained,
and no derived stream exists (the transcriber ends with both refs `none`; the
recorder never touches `mediaStream` or the recorder handle on this path). -/
theorem display_no_audio_fails_clean (tst : TranscriberState)
    (rst : RecorderState) (ds : MediaStream)
    (h1 : tst.isListening = false) (h2 : rst.status ≠ AudioStatus.recording)
    (hda : ds.getAudioTracks = []) :
    ((startListening tst .display (.ok ds)).isListening = false ∧
     (startListening tst .display (.ok ds)).error =
       some ("Error starting listener for display: " ++ hookNoAudioTrackMsg ++ ".") ∧
     (startListening tst .display (.ok ds)).originalDisplayStreamRef = none ∧
     (startListening tst .display (.ok ds)).mediaStreamRef = none ∧
     ∀ t ∈ ds.tracks, t.tid ∈ (startListening tst .display (.ok ds)).stoppedTrackIds) ∧
    ((startRecording rst .display (.ok ds)).status = AudioStatus.idle ∧
     (startRecording rst .display (.ok ds)).error = some recorderNoAudioTrackMsg ∧
     (startRecording rst .display (.ok ds)).originalDisplayStream = none ∧
     (startRecording rst .display (.ok ds)).mediaStream = rst.mediaStream ∧
     (startRecording rst .display (.ok ds)).mediaRecorder = rst.mediaRecorder ∧
     ∀ t ∈ ds.tracks, t.tid ∈ (startRecording rst .display (.ok ds)).stoppedTrackIds) := by
  constructor
  · have hgoal :
        startListening tst .display (.ok ds) =
          cleanupStreams
            { tst with
              error := some ("Error starting listener for display: " ++
                hookNoAudioTrackMsg ++ ".")
              interimTranscript := ""
              finalTranscriptSegment := none
              isListening := false
              originalDisplayStreamRef := some ds } := by
      simp [startListening, h1, startListeningCatch, hda, List.isEmpty_nil,
        AudioSourceType.label]
    obtain ⟨hm, ho, hl, he, hmem, _⟩ := cleanupStreams_spec
      { tst with
        error := some ("Error starting listener for display: " ++
          hookNoAudioTrackMsg ++ ".")
        interimTranscript := ""
        finalTranscriptSegment := none
        isListening := false
        originalDisplayStreamRef := some ds }
    rw [hgoal]
    exact ⟨hl, he, ho, hm, hmem ds rfl⟩
  · have hempty : ds.getAudioTracks.isEmpty = true := by
      rw [hda]; rfl
    cases hau : rst.audioUrl with
    | none =>
      simp only [startRecording, hau, if_neg h2, hempty,
        RecorderState.stopTrackList]
      simp [List.mem_append, List.mem_map]
      intro t ht
      exact Or.inr ⟨t, ht, rfl⟩
    | some u =>
      simp only [startRecording, hau, if_neg h2, hempty,
        RecorderState.stopTrackList]
      simp [List.mem_append, List.mem_map]
      intro t ht
      exact Or.inr ⟨t, ht, rfl⟩

/-- Witness for C2: a display stream carrying a single video track and no
audio track, offered to a fresh transcriber and a fresh recorder. -/
theorem display_no_audio_fails_clean_witness :
    ((startListening ⟨false, none, "", none, none, none, false, []⟩ .display
        (.ok ⟨[⟨9, .video⟩]⟩)).isListening = false ∧
     (startListening ⟨false, none, "", none, none, none, false, []⟩ .display
        (.ok ⟨[⟨9, .video⟩]⟩)).error =
       some ("Error starting listener for display: " ++ hookNoAudioTrackMsg ++ ".") ∧
     (startListening ⟨false, none, "", none, none, none, false, []⟩ .display
        (.ok ⟨[⟨9, .video⟩]⟩)).originalDisplayStreamRef = none ∧
     (startListening ⟨false, none, "", none, none, none, false, []⟩ .display
        (.ok ⟨[⟨9, .video⟩]⟩)).mediaStreamRef = none ∧
     ∀ t ∈ (⟨[⟨9, .video⟩]⟩ : MediaStream).tracks,
       t.tid ∈ (startListening ⟨false, none, "", none, none, none, false, []⟩ .display
        (.ok ⟨[⟨9, .video⟩]⟩)).stoppedTrackIds) ∧
    ((startRecording ⟨.idle, none, none, none, none, none, [], none, false, [], [], 0⟩
        .display (.ok ⟨[⟨9, .video⟩]⟩)).status = AudioStatus.idle ∧
     (startRecording ⟨.idle, none, none, none, none, none, [], none, false, [], [], 0⟩
        .display (.ok ⟨[⟨9, .video⟩]⟩)).error = some recorderNoAudioTrackMsg ∧
     (startRecording ⟨.idle, none, none, none, none, none, [], none, false, [], [], 0⟩
        .display (.ok ⟨[⟨9, .video⟩]⟩)).originalDisplayStream = none ∧
     (startRecording ⟨.idle, none, none, none, none, none, [], none, false, [], [], 0⟩
        .display (.ok ⟨[⟨9, .video⟩]⟩)).mediaStream =
       (⟨.idle, none, none, none, none, none, [], none, false, [], [], 0⟩ :
         RecorderState).mediaStream ∧
     (startRecording ⟨.idle, none, none, none, none, none, [], none, false, [], [], 0⟩
        .display (.ok ⟨[⟨9, .video⟩]⟩)).mediaRecorder =
       (⟨.idle, none, none, none, none, none, [], none, false, [], [], 0⟩ :
         RecorderState).mediaRecorder ∧
     ∀ t ∈ (⟨[⟨9, .video⟩]⟩ : MediaStream).tracks,
       t.tid ∈ (startRecording ⟨.idle, none, none, none, none, none, [], none, false, [], [], 0⟩
        .display (.ok ⟨[⟨9, .video⟩]⟩)).stoppedTrackIds) :=
  display_no_audio_fails_clean
    ⟨false, none, "", none, none, none, false, []⟩
    ⟨.idle, none, none, none, none, none, [], none, false, [], [], 0⟩
    ⟨[⟨9, .video⟩]⟩ rfl (by decide) (by decide)

/-- Claim C3: from every recorder state, `resetRecording` ends in `idle` with a
`none` blob, a `none` URL whose previous value (if any) has been revoked, a
`none` error, an empty chunk buffer, a cleared recorder handle, both stream
slots empty, and every track of the owned stream and of any retained original
display stream stopped. -/
theorem reset_recording_restores_idle (st : RecorderState) :
    (resetRecording st).status = AudioStatus.idle ∧
    (resetRecording st).audioBlob = none ∧
    (resetRecording st).audioUrl = none ∧
    (resetRecording st).error = none ∧
    (resetRecording st).chunks = [] ∧
    (resetRecording st).mediaStream = none ∧
    (resetRecording st).originalDisplayStream = none ∧
    (resetRecording st).mediaRecorder = none ∧
    (∀ u, st.audioUrl = some u → u ∈ (resetRecording st).revokedUrls) ∧
    (∀ s, st.mediaStream = some s →
      ∀ t ∈ s.tracks, t.tid ∈ (resetRecording st).stoppedTrackIds) ∧
    (∀ s, st.originalDisplayStream = some s →
      ∀ t ∈ s.tracks, t.tid ∈ (resetRecording st).stoppedTrackIds) := by
  by_cases hmr : st.mediaRecorder = some RecorderMachine.recording <;>
    cases hau : st.audioUrl <;> cases hms : st.mediaStream <;>
    cases hod : st.originalDisplayStream <;>
    simp [resetRecording, hmr, hau, hms, hod, RecorderState.stopTrackList,
      List.mem_append, List.mem_map]
  all_goals
    first
    | exact fun t ht => Or.inr ⟨t, ht, rfl⟩
    | exact ⟨fun t ht => Or.inr (Or.inl ⟨t, ht, rfl⟩),
             fun t ht => Or.inr (Or.inr ⟨t, ht, rfl⟩)⟩

/-- Witness for C3: reset of a stopped state holding an artifact, a URL, an
owned stream and a retained display stream revokes the URL and stops all
tracks. -/
theorem reset_recording_restores_idle_witness :
    (resetRecording rsFull).status = AudioStatus.idle ∧
    (resetRecording rsFull).audioBlob = none ∧
    (resetRecording rsFull).audioUrl = none ∧
    (resetRecording rsFull).error = none ∧
    (resetRecording rsFull).chunks = [] ∧
    (resetRecording rsFull).mediaStream = none ∧
    (resetRecording rsFull).originalDisplayStream = none ∧
    (resetRecording rsFull).mediaRecorder = none ∧
    (∀ u, rsFull.audioUrl = some u → u ∈ (resetRecording rsFull).revokedUrls) ∧
    (∀ s, rsFull.mediaStream = some s →
      ∀ t ∈ s.tracks, t.tid ∈ (resetRecording rsFull).stoppedTrackIds) ∧
    (∀ s, rsFull.originalDisplayStream = some s →
      ∀ t ∈ s.tracks, t.tid ∈ (resetRecording rsFull).stoppedTrackIds) :=
  reset_recording_restores_idle rsFull

/-- Claim C4: stopping a recording finalizes the buffered chunks into a blob
with a fresh object URL and transitions to `stopped`, while stopping no track
of the owned stream: the stream slots, the stopped-track log and the revoked
URL log are exactly as before, so the stream stays live until a reset. -/
theorem stop_finalizes_without_releasing_tracks (st : RecorderState)
    (hrec : st.mediaRecorder = some RecorderMachine.recording) :
    (fireOnStop (stopRecording st)).status = AudioStatus.stopped ∧
    (fireOnStop (stopRecording st)).audioBlob = some st.chunks ∧
    (fireOnStop (stopRecording st)).audioUrl = some st.nextUrl ∧
    (fireOnStop (stopRecording st)).mediaStream = st.mediaStream ∧
    (fireOnStop (stopRecording st)).originalDisplayStream = st.originalDisplayStream ∧
    (fireOnStop (stopRecording st)).stoppedTrackIds = st.stoppedTrackIds ∧
    (fireOnStop (stopRecording st)).revokedUrls = st.revokedUrls := by
  simp [stopRecording, fireOnStop, hrec]

/-- Witness for C4: stopping a recording session that buffered two chunks on a
live microphone stream yields the artifact and leaves the stream untouched. -/
theorem stop_finalizes_without_releasing_tracks_witness :
    (fireOnStop (stopRecording rsRecording)).status = AudioStatus.stopped ∧
    (fireOnStop (stopRecording rsRecording)).audioBlob = some rsRecording.chunks ∧
    (fireOnStop (stopRecording rsRecording)).audioUrl = some rsRecording.nextUrl ∧
    (fireOnStop (stopRecording rsRecording)).mediaStream = rsRecording.mediaStream ∧
    (fireOnStop (stopRecording rsRecording)).originalDisplayStream =
      rsRecording.originalDisplayStream ∧
    (fireOnStop (stopRecording rsRecording)).stoppedTrackIds =
      rsRecording.stoppedTrackIds ∧
    (fireOnStop (stopRecording rsRecording)).revokedUrls = rsRecording.revokedUrls :=
  stop_finalizes_without_releasing_tracks rsRecording rfl

/-- Counterexample for C5: the claim keys the final branch on the presence of
a final-MARKED segment, but the code keys it on the non-emptiness of the
concatenated final TEXT (`if (finalTranscriptThisPass)`). With accumulator
`"a"` and batch `[final-marked segment with empty text, interim "b"]`, the
claim predicts one `isFinal = true` emission and an accumulator reset; the
code instead emits the interim event `("ab", false)` and leaves the
accumulator at `"a"`. -/
theorem engine_final_marker_counterexample :
    (∃ r ∈ [RecResult.mk "" true, RecResult.mk "b" false], r.isFinal = true) ∧
    onresultStep "a" [RecResult.mk "" true, RecResult.mk "b" false] =
      ("a", [("ab", false)]) := by
  constructor
  · exact ⟨RecResult.mk "" true, by simp, rfl⟩
  · decide

/-- Claim C5 (amended): on each recognition callback, if the concatenation of
the final-marked parts is non-empty the engine emits exactly one event
`(trim (accumulator ++ final-concatenation), true)` and resets the
accumulator; otherwise, if the concatenation of the interim parts is
non-empty, it emits `(trim (accumulator ++ interim-concatenation), false)`
and leaves the accumulator unchanged; otherwise it emits nothing. -/
theorem engine_onresult_amended (acc : String) (results : List RecResult) :
    (finalConcat results ≠ "" →
      onresultStep acc results =
        ("", [(jsTrim (acc ++ finalConcat results), true)])) ∧
    (finalConcat results = "" → interimConcat results ≠ "" →
      onresultStep acc results =
        (acc, [(jsTrim (acc ++ interimConcat results), false)])) ∧
    (finalConcat results = "" → interimConcat results = "" →
      onresultStep acc results = (acc, [])) := by
  refine ⟨?_, ?_, ?_⟩
  · intro h1
    simp [onresultStep, collectParts_eq, h1]
  · intro h1 h2
    simp [onresultStep, collectParts_eq, h1, h2]
  · intro h1 h2
    simp [onresultStep, collectParts_eq, h1, h2]

/-- Witness for the amended C5: a batch with one final-marked segment whose
text has padding is emitted once, trimmed against the accumulator, and a
batch with only an interim segment keeps the accumulator. -/
theorem engine_onresult_amended_witness :
    ((finalConcat [RecResult.mk " world" true] ≠ "" →
        onresultStep "hello" [RecResult.mk " world" true] =
          ("", [(jsTrim ("hello" ++ finalConcat [RecResult.mk " world" true]), true)])) ∧
      (finalConcat [RecResult.mk " world" true] = "" →
        interimConcat [RecResult.mk " world" true] ≠ "" →
        onresultStep "hello" [RecResult.mk " world" true] =
          ("hello",
            [(jsTrim ("hello" ++ interimConcat [RecResult.mk " world" true]), false)])) ∧
      (finalConcat [RecResult.mk " world" true] = "" →
        interimConcat [RecResult.mk " world" true] = "" →
        onresultStep "hello" [RecResult.mk " world" true] = ("hello", []))) ∧
    (finalConcat [RecResult.mk " world" true] ≠ "" ∧
      onresultStep "hello" [RecResult.mk " world" true] = ("", [("hello world", true)])) :=
  ⟨engine_onresult_amended "hello" [RecResult.mk " world" true],
    by decide,
    ((engine_onresult_amended "hello" [RecResult.mk " world" true]).1 (by decide)).trans
      (by decide)⟩

/-- Counterexample for C8: the claim says that after a save the oldest
sessions beyond the 20-session cap are evicted, for EVERY saved session. The
code always retains the new session at the head and drops the tail of the
sorted previously-stored list, so saving a session older than all 20 stored
ones (date 0 against dates 1..20) keeps the overall-oldest (the new session)
and evicts the stored session of date 1, which is newer than it. -/
theorem save_eviction_counterexample :
    (saveSessionToLocalStorage (cxSession 0) cxStore).length = 20 ∧
    cxSession 0 ∈ saveSessionToLocalStorage (cxSession 0) cxStore ∧
    cxSession 1 ∈ cxStore ∧
    cxSession 1 ∉ saveSessionToLocalStorage (cxSession 0) cxStore ∧
    (cxSession 0).date < (cxSession 1).date := by
  decide

/-- Claim C8 (amended): after save the store holds at most 20 sessions,
namely the saved session followed by the 19 most recent previously stored
sessions — the oldest PREVIOUSLY STORED sessions beyond the cap are evicted,
while the saved session is always retained even when it is the oldest
overall; listSessions returns exactly the stored sessions (a permutation)
ordered by date descending; deleteSession(id) removes exactly the sessions
whose id equals the argument. -/
theorem persistence_capped_sorted_delete (sess : StoredInterviewSession)
    (id : String) (store : List StoredInterviewSession) :
    (saveSessionToLocalStorage sess store).length ≤ 20 ∧
    saveSessionToLocalStorage sess store =
      sess :: (getSessionsFromLocalStorage store).take 19 ∧
    List.Sorted sessionDateDesc (getSessionsFromLocalStorage store) ∧
    (getSessionsFromLocalStorage store).Perm store ∧
    (∀ s, s ∈ deleteSessionFromLocalStorage id store ↔ s ∈ store ∧ s.id ≠ id) := by
  refine ⟨?_, ?_, ?_, ?_, ?_⟩
  · exact List.length_take_le _ _
  · rfl
  · exact List.sorted_insertionSort sessionDateDesc store
  · exact List.perm_insertionSort sessionDateDesc store
  · intro s
    simp [deleteSessionFromLocalStorage, getSessionsFromLocalStorage,
      List.mem_filter]

/-- Witness for the amended C8: concrete save, list and delete over a
two-session store. -/
theorem persistence_capped_sorted_delete_witness :
    (saveSessionToLocalStorage (cxSession 5) [cxSession 1, cxSession 2]).length ≤ 20 ∧
    saveSessionToLocalStorage (cxSession 5) [cxSession 1, cxSession 2] =
      cxSession 5 ::
        (getSessionsFromLocalStorage [cxSession 1, cxSession 2]).take 19 ∧
    List.Sorted sessionDateDesc
      (getSessionsFromLocalStorage [cxSession 1, cxSession 2]) ∧
    (getSessionsFromLocalStorage [cxSession 1, cxSession 2]).Perm
      [cxSession 1, cxSession 2] ∧
    (∀ s, s ∈ deleteSessionFromLocalStorage "1" [cxSession 1, cxSession 2] ↔
      s ∈ [cxSession 1, cxSession 2] ∧ s.id ≠ "1") :=
  persistence_capped_sorted_delete (cxSession 5) "1" [cxSession 1, cxSession 2]

end InterviewAce
